import Mathlib

/-!
Shallow embedding of the p2p-update repository (Go) for checking its
specification. The definitions below are translated from the source files:
`update.go` (update lifecycle, deploy dispatch, monitor loop),
`common.go` (STUN message validation, TorrentPorts encoding), and the
StunClient state machine found in `unnamed/part_000` (stunclient code).
-/

namespace P2PUpdate

/-! ## Constants (update.go) -/

/-- UUID of updates deployed with APK (update.go const UUIDApk). -/
def UUIDApk : String := "5ee3a38d-a8dc-514e-9c74-42ab160648aa"

/-- UUID of updates deployed with a shell script (update.go const UUIDShell). -/
def UUIDShell : String := "f5adf0cb-b0e1-5a22-97f1-09092f566438"

/-- Maximum number of deployment failures (update.go const DeployFailsLimit). -/
def DeployFailsLimit : Nat := 5

/-- Maximum execution time of a shell script in seconds
(update.go const ShellExecutionTimeout). -/
def ShellExecutionTimeout : Nat := 600

/-! ## Deployers (update.go: Deployer, ShellDeployer, ApkDeployer) -/

/-- Errors a deployer can produce, tagged by their source site in update.go. -/
inductive DeployErr where
  | notImplemented
  | statFailed
  | mainStatFailed
  | startFailed
  | killed
  | nonZeroExit
  deriving DecidableEq, Repr

/-- Observable behaviour of one script execution: whether `cmd.Start`
succeeds, the wall-clock duration the process would run, and the exit
status it would return if it ran to completion. -/
structure ScriptRun where
  startOk : Bool
  duration : Nat
  exitStatus : Nat
  deriving DecidableEq, Repr

/-- `ShellDeployer.deployFile` (update.go): start `/bin/sh filename`; a
timer fires after `d` and kills the process, which surfaces as an error
from `cmd.Wait`; otherwise a non-zero exit status is the error of
`cmd.Wait`, and a zero exit status is success. -/
def deployFile (run : ScriptRun) (d : Nat) : Except DeployErr Unit :=
  if !run.startOk then .error .startFailed
  else if d < run.duration then .error .killed
  else if run.exitStatus != 0 then .error .nonZeroExit
  else .ok ()

/-- File-system stat oracle: `none` when `os.Stat` fails, `some b` when it
succeeds with `b` telling whether the path is a directory. -/
abbrev StatFn := String → Option Bool

/-- Script execution oracle: the behaviour of running each path. -/
abbrev RunFn := String → ScriptRun

/-- The `main.sh` path resolved inside a directory
(update.go `ShellDeployer.deployDir`). -/
def mainScript (path : String) : String := path ++ "/main.sh"

/-- `ShellDeployer.deploy` together with `deployDir` (update.go): stat the
path; on a directory, stat `path/main.sh` and execute it; otherwise execute
the path itself as a script. -/
def shellDeploy (stat : StatFn) (runs : RunFn) (filename : String) (d : Nat) :
    Except DeployErr Unit :=
  match stat filename with
  | none => .error .statFailed
  | some true =>
    match stat (mainScript filename) with
    | none => .error .mainStatFailed
    | some _ => deployFile (runs (mainScript filename)) d
  | some false => deployFile (runs filename) d

/-- `ApkDeployer.deploy` (update.go): unconditionally
`fmt.Errorf("not implemented")`. -/
def apkDeploy (_filename : String) (_d : Nat) : Except DeployErr Unit :=
  .error .notImplemented

/-! ## Update state and deploy dispatch (update.go) -/

/-- The fields of `Update` (update.go) that the deploy and monitor logic
reads or writes. `Deployed` is represented by the year of its timestamp:
the Go zero time has year 1 and the code treats `Deployed.Year() < 2000`
as "not yet deployed". `missing` mirrors `u.Missing` (a byte count,
`torrent.BytesMissing()` is non-negative). -/
structure UpdateSt where
  uuid : String
  version : Nat
  deployedYear : Nat
  stopped : Bool
  sent : Bool
  deployFails : Nat
  missing : Nat
  deriving DecidableEq, Repr

/-- `Update.deployWith` (update.go): run the deployer on each torrent file
path in order, returning the first error. -/
def deployWith (dep : String → Except DeployErr Unit) :
    List String → Except DeployErr Unit
  | [] => .ok ()
  | f :: rest =>
    match dep f with
    | .error e => .error e
    | .ok _ => deployWith dep rest

/-- Environment of one deploy attempt: the torrent's file paths (already
joined with the agent's data directory), the file-system and execution
oracles used by the shell deployer, and the current year for `time.Now()`. -/
structure DeployEnv where
  files : List String
  stat : StatFn
  runs : RunFn
  nowYear : Nat

/-- Tail of `Update.deploy` (update.go): on a deployer error increment
`DeployFails`, on success zero `DeployFails` and set `Deployed = time.Now()`. -/
def finishDeploy (env : DeployEnv) (u : UpdateSt) :
    Except DeployErr Unit → UpdateSt
  | .error _ => { u with deployFails := u.deployFails + 1 }
  | .ok _ => { u with deployFails := 0, deployedYear := env.nowYear }

/-- `Update.deploy` (update.go): skip when `DeployFails > DeployFailsLimit`;
dispatch on the notification UUID to the APK or shell deployer; an
unrecognized UUID increments `DeployFails` and returns at once. -/
def deploy (env : DeployEnv) (u : UpdateSt) : UpdateSt :=
  if DeployFailsLimit < u.deployFails then u
  else if u.uuid = UUIDApk then
    finishDeploy env u
      (deployWith (fun f => apkDeploy f ShellExecutionTimeout) env.files)
  else if u.uuid = UUIDShell then
    finishDeploy env u
      (deployWith (fun f => shellDeploy env.stat env.runs f ShellExecutionTimeout)
        env.files)
  else
    { u with deployFails := u.deployFails + 1 }

/-! ## Monitor loop (update.go: Update.monitor) -/

/-- Environment of one monitor-loop iteration: whether
`u.Notification.Write(a.Overlay)` succeeds, the value of
`u.torrent.BytesMissing()`, whether `u.torrent != nil`, the
`a.Config.Proxy` flag, and the environment of a deploy attempt. -/
structure TickEnv where
  sendOk : Bool
  bytesMissing : Nat
  hasTorrent : Bool
  proxy : Bool
  denv : DeployEnv

/-- Result of one monitor-loop iteration: the new update state, whether
the descriptor broadcast was attempted, whether `deploy()` was invoked,
and whether the loop continued (`false` when it broke). -/
structure TickResult where
  state : UpdateSt
  broadcastTried : Bool
  deployCalled : Bool
  looped : Bool

/-- One iteration of the `for` loop of `Update.monitor` (update.go): break
when stopped or the torrent handle is nil; else, if not yet sent, write the
notification to the overlay and mark `Sent` only on success; refresh
`Missing` from the torrent; when bytes are missing keep downloading,
otherwise deploy if the agent is not a proxy and `Deployed` is unset. -/
def monitorTick (env : TickEnv) (u : UpdateSt) : TickResult :=
  if u.stopped || !env.hasTorrent then
    { state := u, broadcastTried := false, deployCalled := false, looped := false }
  else
    let step :=
      if !u.sent then
        (if env.sendOk then ({ u with sent := true }, true) else (u, true))
      else (u, false)
    let u2 := { step.1 with missing := env.bytesMissing }
    if 0 < env.bytesMissing then
      { state := u2, broadcastTried := step.2, deployCalled := false, looped := true }
    else if !env.proxy && u2.deployedYear < 2000 then
      { state := deploy env.denv u2, broadcastTried := step.2,
        deployCalled := true, looped := true }
    else
      { state := u2, broadcastTried := step.2, deployCalled := false, looped := true }

/-! ## Update registry and Start (update.go / unnamed/part_000: Update.Start) -/

/-- The agent's update registry `a.Updates`, a map keyed by UUID. -/
abbrev Registry := List (String × UpdateSt)

/-- Map lookup on the registry. -/
def lookupReg : Registry → String → Option UpdateSt
  | [], _ => none
  | (k, v) :: rest, key => if k = key then some v else lookupReg rest key

/-- Map store `a.Updates[uuid] = u`: replace the entry for the key or
append a fresh one. -/
def insertReg : Registry → String → UpdateSt → Registry
  | [], key, v => [(key, v)]
  | (k, w) :: rest, key, v =>
    if k = key then (key, v) :: rest else (k, w) :: insertReg rest key v

/-- Errors of `Update.Start`: `errUpdateVerificationFailed`,
`errUpdateIsOlder`, `errUpdateIsAlreadyExist`, and the torrent
metainfo/AddTorrent failures. -/
inductive StartErr where
  | verificationFailed
  | isOlder
  | alreadyExists
  | torrentFailed
  deriving DecidableEq, Repr

/-- Observable side effects of `Update.Start` on a superseded update:
`cu.Stop()` and `cu.Delete()` invoked on the old entry. -/
inductive StartEffect where
  | stoppedOld (uuid : String) (version : Nat)
  | deletedOld (uuid : String) (version : Nat)
  deriving DecidableEq, Repr

/-- Result of `Update.Start`: the registry after the call, the side
effects applied to a superseded update, and the returned error if any. -/
structure StartResult where
  reg : Registry
  effects : List StartEffect
  err : Option StartErr

/-- `Update.Start` (unnamed/part_000, same policy as update.go's Start via
`addUpdate`): verify; look the UUID up in `a.Updates`; return
`errUpdateIsOlder` when the existing version is strictly newer and
`errUpdateIsAlreadyExist` when it is equal, leaving the registry
unchanged; otherwise stop and delete the old entry (when present) and
store the new update, which is marked `stopped = false` once its torrent
is activated. `verifyOk` abstracts the signature check and `torrentOk`
the torrent metainfo generation and `AddTorrent` call. -/
def updateStart (verifyOk torrentOk : Bool) (reg : Registry) (u : UpdateSt) :
    StartResult :=
  if !verifyOk then { reg := reg, effects := [], err := some .verificationFailed }
  else
    let stored := if torrentOk then { u with stopped := false } else u
    let terr : Option StartErr := if torrentOk then none else some .torrentFailed
    match lookupReg reg u.uuid with
    | some cu =>
      if u.version < cu.version then
        { reg := reg, effects := [], err := some .isOlder }
      else if cu.version = u.version then
        { reg := reg, effects := [], err := some .alreadyExists }
      else
        { reg := insertReg reg u.uuid stored,
          effects := [.stoppedOld cu.uuid cu.version, .deletedOld cu.uuid cu.version],
          err := terr }
    | none =>
      { reg := insertReg reg u.uuid stored, effects := [], err := terr }

/-! ## STUN message validation (common.go: validateMessage) -/

/-- The facts about a decoded STUN message that `validateMessage`
(common.go) inspects: the message type (method and class), whether the
decoded total length matched the header (guaranteed by `stun.Decode`),
whether the Username attribute is present, whether the CRC32 fingerprint
checks out, and whether the message-integrity HMAC verifies under the
configured shared password. -/
structure StunMsg where
  method : Nat
  cls : Nat
  lengthOk : Bool
  hasUsername : Bool
  fingerprintOk : Bool
  integrityOk : Bool
  deriving DecidableEq, Repr

/-- The errors `validateMessage` (common.go) returns. -/
inductive ValErr where
  | wrongType
  | invalidUsername
  | badFingerprint
  | badIntegrity
  deriving DecidableEq, Repr

/-- `validateMessage` (common.go): when an expected type `t` is given,
reject a method or class mismatch; then require the Username attribute,
check `stun.Fingerprint`, and check the short-term integrity keyed by
`stunPassword`. -/
def validateMessage (m : StunMsg) (t : Option (Nat × Nat)) :
    Except ValErr Unit :=
  if (match t with
      | some tt => m.method != tt.1 || m.cls != tt.2
      | none => false) then .error .wrongType
  else if !m.hasUsername then .error .invalidUsername
  else if !m.fingerprintOk then .error .badFingerprint
  else if !m.integrityOk then .error .badIntegrity
  else .ok ()

/-- Well-formedness of a message as the spec defines it: total length
matches the header, the integrity tag verifies, the fingerprint matches,
and the Username attribute is present. -/
def wellFormed (m : StunMsg) : Prop :=
  m.lengthOk = true ∧ m.integrityOk = true ∧ m.fingerprintOk = true ∧
    m.hasUsername = true

/-- The expected-type condition: trivially true when no type is given. -/
def typeMatches (m : StunMsg) : Option (Nat × Nat) → Prop
  | none => True
  | some tt => m.method = tt.1 ∧ m.cls = tt.2

/-! ## TorrentPorts encoding (common.go: TorrentPorts) -/

/-- STUN attribute tags used by common.go. -/
inductive Attr where
  | username
  | data
  | evenPort
  deriving DecidableEq, Repr

/-- A STUN message's attribute list: `m.Add` appends, `m.Get` returns the
value of the first attribute with the requested tag. -/
abbrev AttrList := List (Attr × List Nat)

/-- `m.Get`: first attribute with the given tag, `none` when absent. -/
def getAttr : AttrList → Attr → Option (List Nat)
  | [], _ => none
  | (a, v) :: rest, t => if a = t then some v else getAttr rest t

/-- `m.Add`: append an attribute. -/
def addAttr (m : AttrList) (a : Attr) (v : List Nat) : AttrList :=
  m ++ [(a, v)]

/-- `binary.LittleEndian.PutUint32`: the four little-endian bytes of a
32-bit value. -/
def putUint32LE (x : Nat) : List Nat :=
  [x % 256, x / 256 % 256, x / 65536 % 256, x / 16777216 % 256]

/-- `binary.LittleEndian.Uint32`: read four little-endian bytes. -/
def getUint32LE (b : List Nat) : Nat :=
  match b with
  | b0 :: b1 :: b2 :: b3 :: _ => b0 + 256 * b1 + 65536 * b2 + 16777216 * b3
  | _ => 0

/-- `TorrentPorts.AddTo` (common.go): write the two ports as little-endian
32-bit values (Go's `uint32(tp[i])` conversion truncates modulo `2 ^ 32`)
into an 8-byte EvenPort attribute. -/
def torrentPortsAddTo (tp : Nat × Nat) (m : AttrList) : AttrList :=
  addAttr m .evenPort
    (putUint32LE (tp.1 % 2 ^ 32) ++ putUint32LE (tp.2 % 2 ^ 32))

/-- `TorrentPorts.GetFrom` (common.go): read the EvenPort attribute and
decode the two little-endian 32-bit values; propagate the error of
`m.Get` when the attribute is absent. -/
def torrentPortsGetFrom (m : AttrList) : Option (Nat × Nat) :=
  match getAttr m .evenPort with
  | none => none
  | some b => some (getUint32LE (b.take 4), getUint32LE (b.drop 4))

/-! ## StunClient state machine (unnamed/part_000) -/

/-- The states of the agent's STUN client. -/
inductive StunState where
  | stopped
  | registering
  | registered
  | registrationFailed
  | connected
  deriving DecidableEq, Repr

/-- The transition labels fed to `StunClient.transition` through the event
channel. -/
inductive StunEvent where
  | binding
  | bindSuccess
  | bindError
  | reset
  | stop
  | peer
  | noPeer
  deriving DecidableEq, Repr

/-- `StunClient.transitionBinding` (state change only; the network request
it issues reports back later through separate bind-success or bind-error
events). -/
def transitionBinding (s : StunState) : StunState :=
  match s with
  | .stopped | .registering => .registering
  | _ => s

/-- `StunClient.transitionBindSuccess`: Registering moves to Registered,
any other state is unchanged. -/
def transitionBindSuccess (s : StunState) : StunState :=
  if s = .registering then .registered else s

/-- `StunClient.transitionBindError`: Registering moves to
RegistrationFailed and a Reset event is pushed onto the event channel;
any other state is unchanged and pushes nothing. -/
def transitionBindError (s : StunState) : StunState × List StunEvent :=
  if s = .registering then (.registrationFailed, [.reset]) else (s, [])

/-- `StunClient.transitionReset`: RegistrationFailed moves to Stopped, any
other state is unchanged. -/
def transitionReset (s : StunState) : StunState :=
  if s = .registrationFailed then .stopped else s

/-- `StunClient.transitionStop`: Stopped stays; Registering, Registered
and Connected move to Stopped; the default branch (RegistrationFailed)
is unchanged. -/
def transitionStop (s : StunState) : StunState :=
  match s with
  | .stopped => .stopped
  | .registering | .registered | .connected => .stopped
  | .registrationFailed => .registrationFailed

/-- `StunClient.transition` (unnamed/part_000): dispatch one event label,
returning the new state and the events pushed onto the channel. Peer and
NoPeer have empty case bodies in the source. -/
def transition (s : StunState) : StunEvent → StunState × List StunEvent
  | .binding => (transitionBinding s, [])
  | .bindSuccess => (transitionBindSuccess s, [])
  | .bindError => transitionBindError s
  | .reset => (transitionReset s, [])
  | .stop => (transitionStop s, [])
  | .peer => (s, [])
  | .noPeer => (s, [])

/-- Drain the event channel in FIFO order, with fuel bounding the number
of processed events (the goroutine in `StunClient.Start` loops reading
`sc.event` and calling `sc.transition`). -/
def runEvents : Nat → StunState → List StunEvent → StunState
  | 0, s, _ => s
  | _ + 1, s, [] => s
  | n + 1, s, e :: rest =>
    let p := transition s e
    runEvents n p.1 (rest ++ p.2)

/-! ## Helper lemmas -/

/-- A deploy attempt never touches the `Sent` flag. -/
theorem deploy_preserves_sent (env : DeployEnv) (u : UpdateSt) :
    (deploy env u).sent = u.sent := by
  unfold deploy
  split
  · rfl
  · split
    · cases h : deployWith (fun f => apkDeploy f ShellExecutionTimeout) env.files <;>
        simp [finishDeploy]
    · split
      · cases h : deployWith
            (fun f => shellDeploy env.stat env.runs f ShellExecutionTimeout)
            env.files <;>
          simp [finishDeploy]
      · rfl

/-- `m.Get` finds an attribute appended to a message that lacked it. -/
theorem getAttr_append_of_none (m : AttrList) (a : Attr) (v : List Nat)
    (h : getAttr m a = none) : getAttr (m ++ [(a, v)]) a = some v := by
  induction m with
  | nil => simp [getAttr]
  | cons hd tl ih =>
    obtain ⟨b, w⟩ := hd
    by_cases hb : b = a
    · simp [getAttr, hb] at h
    · simp only [getAttr, List.cons_append, if_neg hb] at h ⊢
      exact ih h

/-! ## Claim theorems -/

/-- C1: `Update.Start` on a verified update: with no registered update of
the same uuid, the update is inserted; a registered strictly older version
is stopped, deleted and replaced; an equal version fails with the
already-exists error and leaves the registry unchanged; a strictly newer
version fails with the is-older error and leaves the registry unchanged. -/
theorem start_registry_spec (reg : Registry) (u : UpdateSt) :
    (lookupReg reg u.uuid = none →
      (updateStart true true reg u).err = none ∧
      (updateStart true true reg u).reg =
        insertReg reg u.uuid { u with stopped := false } ∧
      (updateStart true true reg u).effects = []) ∧
    (∀ cu, lookupReg reg u.uuid = some cu →
      (cu.version < u.version →
        (updateStart true true reg u).err = none ∧
        (updateStart true true reg u).reg =
          insertReg reg u.uuid { u with stopped := false } ∧
        (updateStart true true reg u).effects =
          [.stoppedOld cu.uuid cu.version, .deletedOld cu.uuid cu.version]) ∧
      (cu.version = u.version →
        (updateStart true true reg u).err = some .alreadyExists ∧
        (updateStart true true reg u).reg = reg) ∧
      (u.version < cu.version →
        (updateStart true true reg u).err = some .isOlder ∧
        (updateStart true true reg u).reg = reg)) := by
  refine ⟨fun h => ?_, fun cu h => ⟨fun hlt => ?_, fun heq => ?_, fun hgt => ?_⟩⟩
  · simp [updateStart, h]
  · have h1 : ¬ u.version < cu.version := by omega
    have h2 : ¬ cu.version = u.version := by omega
    simp [updateStart, h, h1, h2]
  · have h1 : ¬ u.version < cu.version := by omega
    simp [updateStart, h, h1, heq]
  · simp [updateStart, h, hgt]

/-- Witness for the already-exists branch at a one-entry registry. -/
theorem start_registry_spec_witness :
    (updateStart true true [("x", ⟨"x", 1, 1, true, false, 0, 0⟩)]
        ⟨"x", 1, 1, true, false, 0, 0⟩).err = some .alreadyExists ∧
    (updateStart true true [("x", ⟨"x", 1, 1, true, false, 0, 0⟩)]
        ⟨"x", 1, 1, true, false, 0, 0⟩).reg =
      [("x", ⟨"x", 1, 1, true, false, 0, 0⟩)] :=
  ((start_registry_spec [("x", ⟨"x", 1, 1, true, false, 0, 0⟩)]
      ⟨"x", 1, 1, true, false, 0, 0⟩).2
    ⟨"x", 1, 1, true, false, 0, 0⟩ (by decide)).2.1 rfl

/-- C2: `Update.deploy` skips and changes nothing once `DeployFails`
exceeds the limit; otherwise the attempt either increments `DeployFails`
by exactly one leaving `Deployed` unchanged, or zeroes `DeployFails` and
stamps `Deployed`; hence `DeployFails` never decreases except by a reset
to zero. -/
theorem deploy_fails_spec (env : DeployEnv) (u : UpdateSt) :
    (DeployFailsLimit < u.deployFails → deploy env u = u) ∧
    (u.deployFails ≤ DeployFailsLimit →
      ((deploy env u).deployFails = u.deployFails + 1 ∧
        (deploy env u).deployedYear = u.deployedYear) ∨
      ((deploy env u).deployFails = 0 ∧
        (deploy env u).deployedYear = env.nowYear)) ∧
    ((deploy env u).deployFails = 0 ∨
      u.deployFails ≤ (deploy env u).deployFails) := by
  have hsa : ¬ (UUIDShell = UUIDApk) := by decide
  by_cases hl : DeployFailsLimit < u.deployFails
  · exact ⟨fun _ => by simp [deploy, hl], fun h => absurd hl (by omega),
      Or.inr (by simp [deploy, hl])⟩
  · have key : ((deploy env u).deployFails = u.deployFails + 1 ∧
        (deploy env u).deployedYear = u.deployedYear) ∨
        ((deploy env u).deployFails = 0 ∧
          (deploy env u).deployedYear = env.nowYear) := by
      by_cases ha : u.uuid = UUIDApk
      · cases hres : deployWith (fun f => apkDeploy f ShellExecutionTimeout)
            env.files <;>
          simp [deploy, hl, ha, hres, finishDeploy]
      · by_cases hs : u.uuid = UUIDShell
        · cases hres : deployWith
              (fun f => shellDeploy env.stat env.runs f ShellExecutionTimeout)
              env.files <;>
            simp [deploy, hl, ha, hs, hsa, hres, finishDeploy]
        · simp [deploy, hl, ha, hs]
    refine ⟨fun h => absurd h hl, fun _ => key, ?_⟩
    rcases key with ⟨h1, _⟩ | ⟨h1, _⟩
    · right
      omega
    · left
      exact h1

/-- Witness: over the fail limit the state is returned untouched. -/
theorem deploy_fails_spec_witness :
    deploy ⟨[], fun _ => none, fun _ => ⟨true, 0, 0⟩, 2024⟩
        ⟨"x", 1, 1, true, false, 9, 0⟩ =
      ⟨"x", 1, 1, true, false, 9, 0⟩ :=
  (deploy_fails_spec ⟨[], fun _ => none, fun _ => ⟨true, 0, 0⟩, 2024⟩
      ⟨"x", 1, 1, true, false, 9, 0⟩).1 (by decide)

/-- C3: the monitor loop calls `deploy()` only when the torrent reports
zero missing bytes, the agent is not a proxy, and `Deployed` is unset
(its year is below 2000, the Go zero-time convention); in particular
never while bytes are missing. -/
theorem monitor_deploy_guard (env : TickEnv) (u : UpdateSt)
    (h : (monitorTick env u).deployCalled = true) :
    env.bytesMissing = 0 ∧ env.proxy = false ∧ u.deployedYear < 2000 := by
  cases hst : u.stopped <;> cases hht : env.hasTorrent <;>
    cases hsent : u.sent <;> cases hsend : env.sendOk <;>
    by_cases hm : 0 < env.bytesMissing <;>
    by_cases hp : env.proxy = true <;>
    by_cases hd : u.deployedYear < 2000 <;>
    simp_all [monitorTick]

/-- Witness: a tick that does deploy satisfies the three guards. -/
theorem monitor_deploy_guard_witness :
    (⟨true, 0, true, false, ⟨[], fun _ => none, fun _ => ⟨true, 0, 0⟩, 2024⟩⟩
        : TickEnv).bytesMissing = 0 ∧
    (⟨true, 0, true, false, ⟨[], fun _ => none, fun _ => ⟨true, 0, 0⟩, 2024⟩⟩
        : TickEnv).proxy = false ∧
    (⟨"x", 1, 1, false, true, 0, 0⟩ : UpdateSt).deployedYear < 2000 :=
  monitor_deploy_guard
    ⟨true, 0, true, false, ⟨[], fun _ => none, fun _ => ⟨true, 0, 0⟩, 2024⟩⟩
    ⟨"x", 1, 1, false, true, 0, 0⟩ rfl

/-- C4: on a decoded message (whose total length matched the header),
`validateMessage` succeeds exactly when the message is well-formed — the
Username attribute is present, the fingerprint matches, the integrity tag
verifies — and, when an expected type is given, the method and class
match; in every other case it returns an error. -/
theorem validateMessage_ok_iff (m : StunMsg) (t : Option (Nat × Nat))
    (hdec : m.lengthOk = true) :
    validateMessage m t = .ok () ↔ wellFormed m ∧ typeMatches m t := by
  cases t with
  | none =>
    cases hu : m.hasUsername <;> cases hf : m.fingerprintOk <;>
      cases hi : m.integrityOk <;>
      simp [validateMessage, wellFormed, typeMatches, hdec, hu, hf, hi]
  | some tt =>
    by_cases hmt : m.method = tt.1 <;> by_cases hct : m.cls = tt.2 <;>
      cases hu : m.hasUsername <;> cases hf : m.fingerprintOk <;>
        cases hi : m.integrityOk <;>
        simp [validateMessage, wellFormed, typeMatches, hdec, hu, hf, hi,
          hmt, hct]

/-- Witness: a fully well-formed message of the expected type validates. -/
theorem validateMessage_ok_iff_witness :
    validateMessage ⟨1, 2, true, true, true, true⟩ (some (1, 2)) = .ok () :=
  (validateMessage_ok_iff ⟨1, 2, true, true, true, true⟩ (some (1, 2))
      rfl).2 ⟨⟨rfl, rfl, rfl, rfl⟩, rfl, rfl⟩

/-- C5: `ApkDeployer.deploy` returns the not-implemented error on every
input, and dispatching an APK-uuid update (with at least one torrent file
and the fail limit not yet exceeded) increments `DeployFails` by one and
leaves `Deployed` unchanged. -/
theorem apk_deploy_counts_failure :
    (∀ f d, apkDeploy f d = Except.error DeployErr.notImplemented) ∧
    (∀ (env : DeployEnv) (u : UpdateSt), u.uuid = UUIDApk →
      u.deployFails ≤ DeployFailsLimit → env.files ≠ [] →
      (deploy env u).deployFails = u.deployFails + 1 ∧
      (deploy env u).deployedYear = u.deployedYear) := by
  refine ⟨fun f d => rfl, fun env u hu hl hf => ?_⟩
  have hnl : ¬ DeployFailsLimit < u.deployFails := by omega
  cases hfs : env.files with
  | nil => exact absurd hfs hf
  | cons f rest =>
    simp [deploy, hnl, hu, hfs, deployWith, apkDeploy, finishDeploy]

/-- Witness: one APK-uuid update with one file gains a deploy failure. -/
theorem apk_deploy_counts_failure_witness :
    (deploy ⟨["f"], fun _ => none, fun _ => ⟨true, 0, 0⟩, 2024⟩
        ⟨UUIDApk, 1, 1, false, true, 0, 0⟩).deployFails = 0 + 1 ∧
    (deploy ⟨["f"], fun _ => none, fun _ => ⟨true, 0, 0⟩, 2024⟩
        ⟨UUIDApk, 1, 1, false, true, 0, 0⟩).deployedYear = 1 :=
  apk_deploy_counts_failure.2
    ⟨["f"], fun _ => none, fun _ => ⟨true, 0, 0⟩, 2024⟩
    ⟨UUIDApk, 1, 1, false, true, 0, 0⟩ rfl (by decide) (by decide)

/-- C6: the shell deployer resolves a directory to its `main.sh` (failing
when statting it fails) and a plain path to itself; a run that outlives
the timeout is killed and reported as an error; with the process finishing
in time, success is exactly a zero exit status. -/
theorem shellDeploy_spec (stat : StatFn) (runs : RunFn) (p : String) (d : Nat) :
    (stat p = some true →
      (stat (mainScript p) = none →
        shellDeploy stat runs p d = .error .mainStatFailed) ∧
      (∀ b, stat (mainScript p) = some b →
        shellDeploy stat runs p d = deployFile (runs (mainScript p)) d)) ∧
    (stat p = some false →
      shellDeploy stat runs p d = deployFile (runs p) d) ∧
    (stat p = none → shellDeploy stat runs p d = .error .statFailed) ∧
    (∀ run : ScriptRun, run.startOk = true → d < run.duration →
      deployFile run d = .error .killed) ∧
    (∀ run : ScriptRun, run.startOk = true → run.duration ≤ d →
      (deployFile run d = .ok () ↔ run.exitStatus = 0)) := by
  refine ⟨fun h => ⟨fun hm => ?_, fun b hm => ?_⟩, fun h => ?_, fun h => ?_,
    fun run h1 h2 => ?_, fun run h1 h2 => ?_⟩
  · simp [shellDeploy, h, hm]
  · simp [shellDeploy, h, hm]
  · simp [shellDeploy, h]
  · simp [shellDeploy, h]
  · simp [deployFile, h1, h2]
  · have hnd : ¬ d < run.duration := by omega
    by_cases he : run.exitStatus = 0 <;> simp [deployFile, h1, hnd, he]

/-- Witness: a directory path is deployed through its `main.sh`. -/
theorem shellDeploy_spec_witness :
    shellDeploy (fun s => if s = "dir" then some true else some false)
        (fun _ => ⟨true, 0, 0⟩) "dir" 5 =
      deployFile ((fun _ => (⟨true, 0, 0⟩ : ScriptRun)) (mainScript "dir")) 5 :=
  ((shellDeploy_spec (fun s => if s = "dir" then some true else some false)
      (fun _ => ⟨true, 0, 0⟩) "dir" 5).1 (by decide)).2 false (by decide)

/-- C7: a bind-error in Registering moves the client to RegistrationFailed
and queues a Reset whose processing lands in Stopped; a bind-success in
Registering moves it to Registered; in any other state both events leave
the state unchanged. -/
theorem stun_bind_transitions :
    transition .registering .bindError = (.registrationFailed, [.reset]) ∧
    runEvents 2 .registering [.bindError] = .stopped ∧
    transition .registering .bindSuccess = (.registered, []) ∧
    ∀ s : StunState, s ≠ .registering →
      (transition s .bindError).1 = s ∧ (transition s .bindSuccess).1 = s := by
  refine ⟨rfl, rfl, rfl, fun s hs => ?_⟩
  cases s <;> first
    | exact absurd rfl hs
    | exact ⟨rfl, rfl⟩

/-- Witness: in Registered, bind events do not move the state. -/
theorem stun_bind_transitions_witness :
    (transition .registered .bindError).1 = StunState.registered ∧
    (transition .registered .bindSuccess).1 = StunState.registered :=
  stun_bind_transitions.2.2.2 .registered (by decide)

/-- C8: in a monitor tick that runs (not stopped, torrent attached) with
the `Sent` flag still false, the broadcast is attempted and `Sent` ends up
true exactly when the overlay write succeeded, so a failed broadcast is
retried on the next tick. -/
theorem monitor_sent_spec (env : TickEnv) (u : UpdateSt)
    (hs : u.stopped = false) (ht : env.hasTorrent = true)
    (hns : u.sent = false) :
    (monitorTick env u).broadcastTried = true ∧
    (monitorTick env u).state.sent = env.sendOk := by
  cases hsend : env.sendOk <;>
    by_cases hm : 0 < env.bytesMissing <;>
    by_cases hp : env.proxy = true <;>
    by_cases hd : u.deployedYear < 2000 <;>
    simp [monitorTick, hs, ht, hns, hsend, hm, hp, hd, deploy_preserves_sent]

/-- Witness: a failed overlay write leaves `Sent` false after the tick. -/
theorem monitor_sent_spec_witness :
    (monitorTick
        ⟨false, 3, true, false, ⟨[], fun _ => none, fun _ => ⟨true, 0, 0⟩, 2024⟩⟩
        ⟨"x", 1, 1, false, false, 0, 0⟩).broadcastTried = true ∧
    (monitorTick
        ⟨false, 3, true, false, ⟨[], fun _ => none, fun _ => ⟨true, 0, 0⟩, 2024⟩⟩
        ⟨"x", 1, 1, false, false, 0, 0⟩).state.sent = false :=
  monitor_sent_spec
    ⟨false, 3, true, false, ⟨[], fun _ => none, fun _ => ⟨true, 0, 0⟩, 2024⟩⟩
    ⟨"x", 1, 1, false, false, 0, 0⟩ rfl rfl rfl

/-- C9: encoding a pair of 32-bit torrent ports with `TorrentPorts.AddTo`
into a message without an EvenPort attribute and reading it back with
`TorrentPorts.GetFrom` restores the pair. -/
theorem torrentPorts_roundtrip (tp : Nat × Nat) (m : AttrList)
    (h1 : tp.1 < 2 ^ 32) (h2 : tp.2 < 2 ^ 32)
    (hm : getAttr m .evenPort = none) :
    torrentPortsGetFrom (torrentPortsAddTo tp m) = some tp := by
  unfold torrentPortsAddTo torrentPortsGetFrom addAttr
  rw [getAttr_append_of_none m _ _ hm]
  have e1 : tp.1 % 2 ^ 32 = tp.1 := Nat.mod_eq_of_lt h1
  have e2 : tp.2 % 2 ^ 32 = tp.2 := Nat.mod_eq_of_lt h2
  rw [e1, e2]
  simp only [putUint32LE, getUint32LE, List.cons_append, List.nil_append,
    List.take, List.drop, Option.some.injEq]
  have := h1
  have := h2
  refine Prod.ext ?_ ?_ <;> simp <;> omega

/-- Witness: an over-16-bit and a plain port survive the round trip. -/
theorem torrentPorts_roundtrip_witness :
    torrentPortsGetFrom (torrentPortsAddTo (70000, 9322) []) =
      some (70000, 9322) :=
  torrentPorts_roundtrip (70000, 9322) [] (by decide) (by decide) rfl

/-- C10: with a UUID that is neither the shell nor the APK one and the
fail limit not yet exceeded, `Update.deploy` only increments `DeployFails`
by one — `Deployed` stays put and the result does not depend on the
deploy environment, so no deployer runs. -/
theorem deploy_unrecognized_uuid (env env2 : DeployEnv) (u : UpdateSt)
    (h1 : u.uuid ≠ UUIDApk) (h2 : u.uuid ≠ UUIDShell)
    (h3 : u.deployFails ≤ DeployFailsLimit) :
    deploy env u = { u with deployFails := u.deployFails + 1 } ∧
    deploy env u = deploy env2 u := by
  have hl : ¬ DeployFailsLimit < u.deployFails := by omega
  simp [deploy, hl, h1, h2]

/-- Witness: an unknown uuid is charged one failure, whatever the files. -/
theorem deploy_unrecognized_uuid_witness :
    deploy ⟨["f"], fun _ => none, fun _ => ⟨true, 0, 0⟩, 2024⟩
        ⟨"y", 1, 1, false, true, 2, 0⟩ =
      (⟨"y", 1, 1, false, true, 3, 0⟩ : UpdateSt) ∧
    deploy ⟨["f"], fun _ => none, fun _ => ⟨true, 0, 0⟩, 2024⟩
        ⟨"y", 1, 1, false, true, 2, 0⟩ =
      deploy ⟨[], fun _ => some true, fun _ => ⟨false, 7, 1⟩, 1999⟩
        ⟨"y", 1, 1, false, true, 2, 0⟩ :=
  deploy_unrecognized_uuid
    ⟨["f"], fun _ => none, fun _ => ⟨true, 0, 0⟩, 2024⟩
    ⟨[], fun _ => some true, fun _ => ⟨false, 7, 1⟩, 1999⟩
    ⟨"y", 1, 1, false, true, 2, 0⟩ (by decide) (by decide) (by decide)

end P2PUpdate
